import Mathlib

/-!
Verification of the ISY994 binary-sensor platform
(`homeassistant/components/binary_sensor/isy994.py`).

Shallow embedding conventions:
  - Python `None` values become `Option.none`.
  - A Python attribute that may be absent (raising `AttributeError` on
    access) is modelled as an `Option` argument, `none` meaning absent.
  - Code that can raise an uncaught exception is embedded in
    `Except String`, the `String` naming the Python exception class.
  - Wall-clock time is a `Nat` measured in hours; `timedelta(hours=25)`
    becomes `+ 25`.
-/

/-- States list from homeassistant.const: STATE_ON = "on". -/
def STATE_ON : String := "on"

/-- States list from homeassistant.const: STATE_OFF = "off". -/
def STATE_OFF : String := "off"

/-- The `ISY_DEVICE_TYPES` table from the source, as an association list in
the same (insertion) order that Python iterates the dict. -/
def ISY_DEVICE_TYPES : List (String × List String) :=
  [("moisture", ["16.8", "16.13", "16.14"]),
   ("opening", ["16.9", "16.6", "16.7", "16.2", "16.17", "16.20", "16.21"]),
   ("motion", ["16.1", "16.4", "16.5", "16.3"])]

/-- Accumulator loop for `pystr_split`: walk the characters, cutting at
each separator occurrence. -/
def pystr_split_aux (sep : Char) : List Char → List Char → List String
  | [], acc => [String.mk acc.reverse]
  | c :: cs, acc =>
      if c = sep then String.mk acc.reverse :: pystr_split_aux sep cs []
      else pystr_split_aux sep cs (c :: acc)

/-- Python `str.split` with a one-character separator, as used in
`device_type.split('.')`: the empty string splits to `[""]`, and every
separator occurrence cuts, so consecutive separators produce empty
parts. -/
def pystr_split (s : String) (sep : Char) : List String :=
  pystr_split_aux sep s.data []

/-- Core of `_detect_device_type` after `device_type.split('.')`: Python
indexes `split_type[0]` and `split_type[1]`, raising `IndexError` when the
split has fewer than two parts, and otherwise scans `ISY_DEVICE_TYPES` for
the first class whose id list contains `"{}.{}".format(t0, t1)`. -/
def detect_from_split (split_type : List String) : Except String (Option String) :=
  match split_type with
  | t0 :: t1 :: _ =>
      Except.ok ((ISY_DEVICE_TYPES.find?
        (fun p => p.2.contains (t0 ++ "." ++ t1))).map (fun p => p.1))
  | _ => Except.error "IndexError"

/-- The `_detect_device_type` function. The argument is `node.type`:
`none` models the attribute being absent, in which case the caught
`AttributeError` yields Python `None` (here `Except.ok none`). -/
def _detect_device_type (ntype : Option String) : Except String (Option String) :=
  match ntype with
  | none => Except.ok none
  | some device_type => detect_from_split (pystr_split device_type '.')

/-- Python truthiness `bool(x)` on an optional boolean: `bool(None)` is
`False`. This is the body of the `is_on` properties. -/
def pybool : Option Bool → Bool
  | none => false
  | some b => b

/-- The `ISYBinarySensorDevice.value` property as a function of the
detected device class and the current `_computed_state`. `None` is
returned before any inversion; a moisture class inverts the state. -/
def device_value (device_class : Option String) (computed_state : Option Bool) :
    Option Bool :=
  match computed_state with
  | none => none
  | some b => if device_class == some "moisture" then some (!b) else some b

/-- The `ISYBinarySensorDevice.is_on` property: `bool(self.value)`. -/
def device_is_on (device_class : Option String) (computed_state : Option Bool) :
    Bool :=
  pybool (device_value device_class computed_state)

/-- The `ISYBinarySensorDevice.state` property: `None` when
`_computed_state is None`, otherwise `STATE_ON`/`STATE_OFF` by `is_on`. -/
def device_state (device_class : Option String) (computed_state : Option Bool) :
    Option String :=
  match computed_state with
  | none => none
  | some _ =>
      some (if device_is_on device_class computed_state then STATE_ON else STATE_OFF)

/-- The `ISYBinarySensorHeartbeat.value` property: the raw
`_computed_state`. -/
def heartbeat_value (computed_state : Option Bool) : Option Bool :=
  computed_state

/-- The `ISYBinarySensorHeartbeat.is_on` property: `bool(self.value)`. -/
def heartbeat_is_on (computed_state : Option Bool) : Bool :=
  pybool (heartbeat_value computed_state)

/-- The `ISYBinarySensorHeartbeat.state` property. -/
def heartbeat_state (computed_state : Option Bool) : Option String :=
  match computed_state with
  | none => none
  | some _ =>
      some (if heartbeat_is_on computed_state then STATE_ON else STATE_OFF)

/-- Modelled from the spec: `isy.ISYDevice.value`, the base-class property
inherited by `ISYBinarySensorProgram`, is not under src/ (the class lives
in the isy994 component module). Per the spec the program-backed sensor is
a stateless passthrough of the underlying program status flag, a boolean. -/
def program_value (status : Bool) : Bool := status

/-- The `ISYBinarySensorProgram.is_on` property: `bool(self.value)` where
`value` is the inherited passthrough of the program status. -/
def program_is_on (status : Bool) : Bool :=
  pybool (some (program_value status))

/-- State of an `ISYBinarySensorHeartbeat` entity together with a ghost
view of the host scheduler. `computed_state` is `_computed_state`;
`heartbeat_timer` is the `_heartbeat_timer` cancel handle, recorded as the
scheduled fire time (or `none` when no handle is held); `active` is the
list of fire times of timers currently pending in the host scheduler for
this entity. -/
structure HeartbeatState where
  computed_state : Option Bool
  heartbeat_timer : Option Nat
  active : List Nat
  deriving Repr, DecidableEq

/-- State produced by `ISYBinarySensorHeartbeat.__init__`: computed state
unknown, no timer handle, nothing scheduled. -/
def hbInit : HeartbeatState :=
  { computed_state := none, heartbeat_timer := none, active := [] }

/-- The `_restart_timer` method. Calling the stored handle cancels the
pending timer (the `TypeError` branch covers a `None` handle); then a new
timer is scheduled 25 hours from `now` via
`async_track_point_in_utc_time` and its handle stored. -/
def restart_timer (now : Nat) (s : HeartbeatState) : HeartbeatState :=
  let s1 :=
    match s.heartbeat_timer with
    | some h => { s with heartbeat_timer := none, active := s.active.erase h }
    | none => s
  { s1 with heartbeat_timer := some (now + 25), active := s1.active ++ [now + 25] }

/-- The `heartbeat` method: mark the device alive and restart the 25 hour
timer. -/
def heartbeat (now : Nat) (s : HeartbeatState) : HeartbeatState :=
  restart_timer now { s with computed_state := some false }

/-- The `timer_elapsed` callback inside `_restart_timer`: the pending
timer fires at its scheduled time `u`, the battery-dead flag is set, and
the handle is cleared. -/
def timer_elapsed (u : Nat) (s : HeartbeatState) : HeartbeatState :=
  { computed_state := some true, heartbeat_timer := none, active := s.active.erase u }

/-- The `ISYBinarySensorHeartbeat.async_added_to_hass` hook: on attach the
entity subscribes and immediately calls `_restart_timer`, so the countdown
is armed before any event arrives. -/
def async_added_to_hass (t0 : Nat) (s : HeartbeatState) : HeartbeatState :=
  restart_timer t0 s

/-- Events a heartbeat companion reacts to: attach to the host at time t
(`async_added_to_hass`), a liveness notification at time t (a `heartbeat()`
call, from the heartbeat node `DON` handler or the parent sensor), and
the scheduled timer firing at time u. -/
inductive HBEvent where
  | attach (t : Nat)
  | hb (t : Nat)
  | expire (u : Nat)
  deriving Repr, DecidableEq

/-- Transition function of the heartbeat companion. -/
def hbStep (s : HeartbeatState) : HBEvent → HeartbeatState
  | HBEvent.attach t => async_added_to_hass t s
  | HBEvent.hb t => heartbeat t s
  | HBEvent.expire u => timer_elapsed u s

/-- Whether an event can occur in a state: the host fires `timer_elapsed`
only for the timer whose handle the entity currently holds, exactly at its
scheduled time; attach and liveness notifications can always occur. -/
def validEvent (s : HeartbeatState) : HBEvent → Bool
  | HBEvent.expire u => s.heartbeat_timer == some u
  | _ => true

/-- Run a sequence of heartbeat events. -/
def hbRun (s : HeartbeatState) (es : List HBEvent) : HeartbeatState :=
  es.foldl hbStep s

/-- Whether every event of a trace is valid in the state it occurs in. -/
def validTrace (s : HeartbeatState) : List HBEvent → Bool
  | [] => true
  | e :: es => validEvent s e && validTrace (hbStep s e) es

/-- Time of the last event that (re)armed the countdown: attaches and
liveness notifications arm it, expiry does not. `t0` is the arming time
before the trace. -/
def lastArm (t0 : Nat) (es : List HBEvent) : Nat :=
  es.foldl
    (fun a e =>
      match e with
      | HBEvent.attach t => t
      | HBEvent.hb t => t
      | HBEvent.expire _ => a) t0

/-- A small universe of Python values, enough to embed
`_is_val_unknown`, which compares its argument to `-1*float('inf')`.
`nodeObj` stands for a PyISY node object (never equal to a float). -/
inductive PyVal where
  | negInf
  | num (n : Int)
  | nodeObj (nid : String)
  deriving Repr, DecidableEq

/-- The `_is_val_unknown` helper: `val == -1*float('inf')`. -/
def _is_val_unknown (val : PyVal) : Bool := val == PyVal.negInf

/-- State of an `ISYBinarySensorDevice`: its `_computed_state` and the
state of its attached heartbeat companion, if any (`_heartbeat_device`). -/
structure DeviceState where
  computed_state : Option Bool
  heartbeat_device : Option HeartbeatState
  deriving Repr, DecidableEq

/-- The `_heartbeat` method: forward a liveness notification to the
heartbeat companion when one is registered. -/
def device_heartbeat (now : Nat) (s : DeviceState) : DeviceState :=
  match s.heartbeat_device with
  | none => s
  | some h => { s with heartbeat_device := some (heartbeat now h) }

/-- The `_negative_node_control_handler` method: a `DON` event on the
negative node turns the sensor off and sends a heartbeat. -/
def negative_node_control_handler (event : String) (now : Nat) (s : DeviceState) :
    DeviceState :=
  if event == "DON" then
    device_heartbeat now { s with computed_state := some false }
  else s

/-- The `_positive_node_control_handler` method: the source tests `DON`
and `DOF` in two consecutive `if` blocks; `DON` turns the sensor on,
`DOF` turns it off, and each sends a heartbeat. -/
def positive_node_control_handler (event : String) (now : Nat) (s : DeviceState) :
    DeviceState :=
  let s1 :=
    if event == "DON" then
      device_heartbeat now { s with computed_state := some true }
    else s
  if event == "DOF" then
    device_heartbeat now { s1 with computed_state := some false }
  else s1

/-- The `add_negative_node` method. Note that the source passes the node
object itself (not its status value) to `_is_val_unknown`, so the guard
compares a node object with `-inf`. -/
def add_negative_node (child : PyVal) (s : DeviceState) : DeviceState :=
  if !(_is_val_unknown child) then { s with computed_state := none } else s

/-- Control events delivered to a device: an event string on the primary
node or on the negative node, stamped with the delivery time (the time is
used only for the heartbeat companion timer). -/
inductive DevEvent where
  | pos (event : String) (t : Nat)
  | neg (event : String) (t : Nat)
  deriving Repr, DecidableEq

/-- Dispatch of a control event to the subscribed handler. -/
def devStep (s : DeviceState) : DevEvent → DeviceState
  | DevEvent.pos e t => positive_node_control_handler e t s
  | DevEvent.neg e t => negative_node_control_handler e t s

/-- Qualifying events: primary `DON`/`DOF` and negative `DON` are the
only events the handlers act on. -/
def qualifying : DevEvent → Bool
  | DevEvent.pos e _ => e == "DON" || e == "DOF"
  | DevEvent.neg e _ => e == "DON"

/-- Run a sequence of control events through the device handlers. -/
def devRun (s : DeviceState) (es : List DevEvent) : DeviceState :=
  es.foldl devStep s

/-- A controller node as `setup_platform` sees it: its id `nid`, the id of
its parent node (`parent_node.nid`, `none` when `parent_node is None`),
and its `type` attribute (`none` when absent). -/
structure Node where
  nid : String
  parent_node : Option String
  ntype : Option String
  deriving Repr, DecidableEq

/-- Entities appended to the `devices` list during setup. -/
inductive Entity where
  | device (nid : String)
  | heartbeatDev (nid : String) (parent : String)
  | program (name : String)
  deriving Repr, DecidableEq

/-- Python `int(s[-1])`: taking the last character raises `IndexError` on
an empty string, and `int` raises `ValueError` on a non-digit. -/
def int_last_char (s : String) : Except String Nat :=
  match s.data.getLast? with
  | none => Except.error "IndexError"
  | some c => if c.isDigit then Except.ok (c.toNat - 48) else Except.error "ValueError"

/-- Entities contributed by one child node in the second loop of
`setup_platform`. A missing parent device (`KeyError`) is logged and
skipped; a moisture/opening child with subnode id 4 becomes a heartbeat
entity; subnode id 2 only registers a negative node on the parent (no
entity); other moisture/opening subnodes add nothing; any other device
class adds the child as an individual device. `devmap` is the list of
node ids registered in `devices_by_nid`. -/
def childEntity (devmap : List String) (node : Node) : Except String (List Entity) :=
  match node.parent_node with
  | none => Except.ok []
  | some pnid =>
      if devmap.contains pnid then
        match _detect_device_type node.ntype with
        | Except.error e => Except.error e
        | Except.ok device_type =>
            if device_type == some "moisture" || device_type == some "opening" then
              match int_last_char node.nid with
              | Except.error e => Except.error e
              | Except.ok subnode_id =>
                  if subnode_id == 4 then
                    Except.ok [Entity.heartbeatDev node.nid pnid]
                  else
                    Except.ok []
            else
              Except.ok [Entity.device node.nid]
      else
        Except.ok []

/-- The second loop of `setup_platform`: children are processed in order,
each appending its entities; an uncaught exception aborts the loop. -/
def childEntities (devmap : List String) : List Node → Except String (List Entity)
  | [] => Except.ok []
  | n :: rest =>
      match childEntity devmap n with
      | Except.error e => Except.error e
      | Except.ok es =>
          match childEntities devmap rest with
          | Except.error e => Except.error e
          | Except.ok rs => Except.ok (es ++ rs)

/-- A controller program entry: its name and its status member, `none`
when `program[KEY_STATUS]` raises (the `except` branch skips it). -/
structure ProgramEntry where
  name : String
  status : Option Bool
  deriving Repr, DecidableEq

/-- The whole of `setup_platform` after the connectivity check: the first
loop registers parentless nodes as devices (in order) and collects child
nodes; the second loop processes the children; the third adds one entity
per program whose status lookup succeeds. -/
def setup_entities (nodes : List Node) (programs : List ProgramEntry) :
    Except String (List Entity) :=
  let parents := nodes.filter (fun n => n.parent_node == none)
  let children := nodes.filter (fun n => n.parent_node != none)
  let devmap := parents.map (fun n => n.nid)
  match childEntities devmap children with
  | Except.error e => Except.error e
  | Except.ok ce =>
      Except.ok (parents.map (fun n => Entity.device n.nid) ++ ce ++
        (programs.filterMap (fun p =>
          match p.status with
          | none => none
          | some _ => some (Entity.program p.name))))

/-! Helper lemmas shared by several claims. -/

lemma restart_timer_handle (now : Nat) (s : HeartbeatState) :
    (restart_timer now s).heartbeat_timer = some (now + 25) := by
  cases h : s.heartbeat_timer <;> simp [restart_timer, h]

lemma restart_timer_flag (now : Nat) (s : HeartbeatState) :
    (restart_timer now s).computed_state = s.computed_state := by
  cases h : s.heartbeat_timer <;> simp [restart_timer, h]

lemma heartbeat_flag (now : Nat) (s : HeartbeatState) :
    (heartbeat now s).computed_state = some false := by
  simp [heartbeat, restart_timer_flag]

lemma heartbeat_handle (now : Nat) (s : HeartbeatState) :
    (heartbeat now s).heartbeat_timer = some (now + 25) :=
  restart_timer_handle now _

lemma device_heartbeat_state (now : Nat) (s : DeviceState) :
    (device_heartbeat now s).computed_state = s.computed_state := by
  cases h : s.heartbeat_device <;> simp [device_heartbeat, h]

/-- C4: for a moisture-class device the exposed value is the logical
inverse of the computed state, and for any class an unknown computed state
is exposed as unknown, never inverted. -/
theorem moisture_value_inverted (dc : Option String) (b : Bool) :
    device_value (some "moisture") (some b) = some (!b)
    ∧ device_value dc none = none := by
  constructor
  · simp [device_value]
  · simp [device_value]

/-- C9: when the computed state is unknown, `is_on` returns `false` while
`state` returns `None`, for both the sensor device and the heartbeat
companion; when the computed state is known, `state` is `STATE_ON` or
`STATE_OFF`. -/
theorem is_on_false_state_none_when_unknown :
    (∀ dc : Option String, device_is_on dc none = false)
    ∧ (∀ dc : Option String, device_state dc none = none)
    ∧ heartbeat_is_on none = false
    ∧ heartbeat_state none = none
    ∧ (∀ (dc : Option String) (b : Bool),
        device_state dc (some b) = some STATE_ON
        ∨ device_state dc (some b) = some STATE_OFF)
    ∧ (∀ b : Bool,
        heartbeat_state (some b) = some STATE_ON
        ∨ heartbeat_state (some b) = some STATE_OFF) := by
  refine ⟨fun dc => rfl, fun dc => rfl, rfl, rfl, fun dc b => ?_, fun b => ?_⟩
  · by_cases h : device_is_on dc (some b) <;> simp [device_state, h]
  · by_cases h : heartbeat_is_on (some b) <;> simp [heartbeat_state, h]

/-- C8: a program-backed sensor's `is_on` equals the underlying boolean
status exactly. -/
theorem program_is_on_eq_status (status : Bool) :
    program_is_on status = status := rfl


lemma detect_from_split_take_two :
    ∀ (l l2 : List String), l.take 2 = l2.take 2 →
      detect_from_split l = detect_from_split l2
  | [], [], _ => rfl
  | [], _ :: _, h => by simp at h
  | _ :: _, [], h => by simp at h
  | [_], [_], h => by
      simp [List.take] at h
      subst h
      rfl
  | [_], _ :: _ :: _, h => by simp [List.take] at h
  | _ :: _ :: _, [_], h => by simp [List.take] at h
  | a :: b :: _, c :: d :: _, h => by
      simp [List.take] at h
      obtain ⟨rfl, rfl⟩ := h
      rfl

lemma detect_from_split_classes (l : List String) (r : Option String)
    (h : detect_from_split l = Except.ok r) :
    r = none ∨ r = some "moisture" ∨ r = some "opening" ∨ r = some "motion" := by
  match l with
  | [] => simp [detect_from_split] at h
  | [_] => simp [detect_from_split] at h
  | t0 :: t1 :: rest =>
      simp only [detect_from_split] at h
      cases hf : ISY_DEVICE_TYPES.find? (fun p => p.2.contains (t0 ++ "." ++ t1)) with
      | none =>
          rw [hf] at h
          simp at h
          simp [h.symm]
      | some p =>
          rw [hf] at h
          simp at h
          have hp : p ∈ ISY_DEVICE_TYPES := List.mem_of_find?_eq_some hf
          simp [ISY_DEVICE_TYPES] at hp
          rcases hp with hp | hp | hp <;> subst hp <;> simp [h.symm]

lemma detect_from_split_short (l : List String) (h : l.length ≤ 1) :
    detect_from_split l = Except.error "IndexError" := by
  match l with
  | [] => rfl
  | [_] => rfl
  | _ :: _ :: _ => simp [List.length] at h

/-- C2 counterexample: a device type code with a single dot-separated
component makes `_detect_device_type` raise `IndexError` rather than
return no match, so the function does have a failure mode beyond
returning no match. -/
theorem detect_device_type_fatal_on_short_code :
    _detect_device_type (some "16") = Except.error "IndexError" := rfl

/-- C2 amended: classification is a pure deterministic function of the two
leading dot-separated components of the code, a missing type attribute is
classified as no match, and every successful classification is no match,
moisture, opening or motion; however a type code with fewer than two
dot-separated components raises `IndexError` instead of returning no
match. -/
theorem detect_device_type_of_two_components (s s2 : String)
    (h : (pystr_split s '.').take 2 = (pystr_split s2 '.').take 2) :
    _detect_device_type (some s) = _detect_device_type (some s2)
    ∧ _detect_device_type none = Except.ok none
    ∧ (∀ r, _detect_device_type (some s) = Except.ok r →
        r = none ∨ r = some "moisture" ∨ r = some "opening" ∨ r = some "motion")
    ∧ (∀ t : String, (pystr_split t '.').length ≤ 1 →
        _detect_device_type (some t) = Except.error "IndexError") := by
  refine ⟨detect_from_split_take_two _ _ h, rfl, ?_, ?_⟩
  · intro r hr
    exact detect_from_split_classes _ r hr
  · intro t ht
    exact detect_from_split_short _ ht

/-- Witness for the amended C2 theorem at concrete codes sharing their two
leading components. -/
theorem detect_device_type_of_two_components_witness :
    ((pystr_split "16.8.1" '.').take 2 = (pystr_split "16.8" '.').take 2)
    ∧ _detect_device_type (some "16.8.1") = _detect_device_type (some "16.8") :=
  ⟨by decide, (detect_device_type_of_two_components "16.8.1" "16.8" (by decide)).1⟩

/-- C3: a `DON` event on the primary node sets the computed state on, a
`DOF` event on the primary node sets it off, a `DON` event on the negative
node sets it off, each of these transitions notifies the attached
heartbeat companion when one exists, and the sequence primary `DON` then
negative `DON` ends with the state off. -/
theorem control_handler_transitions (s : DeviceState) (now : Nat) :
    (positive_node_control_handler "DON" now s).computed_state = some true
    ∧ (positive_node_control_handler "DOF" now s).computed_state = some false
    ∧ (negative_node_control_handler "DON" now s).computed_state = some false
    ∧ (∀ h, s.heartbeat_device = some h →
        (positive_node_control_handler "DON" now s).heartbeat_device
            = some (heartbeat now h)
        ∧ (positive_node_control_handler "DOF" now s).heartbeat_device
            = some (heartbeat now h)
        ∧ (negative_node_control_handler "DON" now s).heartbeat_device
            = some (heartbeat now h))
    ∧ (∀ t1 t2 : Nat,
        (devRun s [DevEvent.pos "DON" t1, DevEvent.neg "DON" t2]).computed_state
            = some false) := by
  refine ⟨?_, ?_, ?_, ?_, ?_⟩
  · simp [positive_node_control_handler, device_heartbeat_state]
  · simp [positive_node_control_handler, device_heartbeat_state]
  · simp [negative_node_control_handler, device_heartbeat_state]
  · intro h hh
    refine ⟨?_, ?_, ?_⟩
    · simp [positive_node_control_handler, device_heartbeat, hh]
    · simp [positive_node_control_handler, device_heartbeat, hh]
    · simp [negative_node_control_handler, device_heartbeat, hh]
  · intro t1 t2
    simp [devRun, devStep, negative_node_control_handler, device_heartbeat_state]

/-- Witness for C3: a device with an attached heartbeat companion is
notified on a primary `DON`. -/
theorem control_handler_transitions_witness :
    (DeviceState.mk none (some hbInit)).heartbeat_device = some hbInit
    ∧ (positive_node_control_handler "DON" 5
        (DeviceState.mk none (some hbInit))).heartbeat_device
        = some (heartbeat 5 hbInit) :=
  ⟨rfl,
    ((control_handler_transitions (DeviceState.mk none (some hbInit)) 5).2.2.2.1
      hbInit rfl).1⟩

lemma devStep_not_qualifying (s : DeviceState) (e : DevEvent)
    (h : qualifying e = false) : devStep s e = s := by
  match e with
  | DevEvent.pos ev t =>
      simp [qualifying] at h
      obtain ⟨h1, h2⟩ := h
      simp [devStep, positive_node_control_handler, h1, h2]
  | DevEvent.neg ev t =>
      simp [qualifying] at h
      simp [devStep, negative_node_control_handler, h]

lemma devRun_not_qualifying (es : List DevEvent) : ∀ s : DeviceState,
    (∀ e ∈ es, qualifying e = false) → devRun s es = s := by
  induction es with
  | nil => intro s _; rfl
  | cons e rest ih =>
      intro s h
      have he : qualifying e = false := h e (by simp)
      have hr : ∀ x ∈ rest, qualifying x = false := fun x hx => h x (by simp [hx])
      have hstep : devRun s (e :: rest) = devRun (devStep s e) rest := rfl
      rw [hstep, devStep_not_qualifying s e he]
      exact ih s hr

/-- C5: `add_negative_node` applied to a node object always sets the
computed state to unknown (the source compares the node object itself,
never equal to `-inf`, against the unknown sentinel), and the state stays
unknown under any sequence of non-qualifying control events. -/
theorem add_negative_node_state_unknown (nid : String) (s : DeviceState)
    (es : List DevEvent) (hq : ∀ e ∈ es, qualifying e = false) :
    (add_negative_node (PyVal.nodeObj nid) s).computed_state = none
    ∧ (devRun (add_negative_node (PyVal.nodeObj nid) s) es).computed_state = none := by
  have h1 : add_negative_node (PyVal.nodeObj nid) s
      = { s with computed_state := none } := by
    simp [add_negative_node, _is_val_unknown]
  rw [h1, devRun_not_qualifying es _ hq]
  exact ⟨rfl, rfl⟩

/-- Witness for C5: a device with a negative node stays unknown across a
status event that is not a control `DON`/`DOF`. -/
theorem add_negative_node_state_unknown_witness :
    (∀ e ∈ [DevEvent.pos "ST" 3], qualifying e = false)
    ∧ (devRun (add_negative_node (PyVal.nodeObj "n2")
        (DeviceState.mk (some true) none)) [DevEvent.pos "ST" 3]).computed_state
        = none :=
  ⟨by decide,
    (add_negative_node_state_unknown "n2" (DeviceState.mk (some true) none)
      [DevEvent.pos "ST" 3] (by decide)).2⟩

lemma childEntity_no_parent (devmap : List String) (c : Node) (p : String)
    (hp : c.parent_node = some p) (hm : devmap.contains p = false) :
    childEntity devmap c = Except.ok [] := by
  have hm' : p ∉ devmap := by simpa using hm
  simp [childEntity, hp, hm']

lemma childEntities_skip (devmap : List String) (c : Node)
    (hc : childEntity devmap c = Except.ok []) :
    ∀ xs ys : List Node,
      childEntities devmap (xs ++ c :: ys) = childEntities devmap (xs ++ ys) := by
  intro xs
  induction xs with
  | nil =>
      intro ys
      show childEntities devmap (c :: ys) = childEntities devmap ys
      simp only [childEntities, hc]
      cases childEntities devmap ys <;> simp
  | cons x xs ih =>
      intro ys
      show childEntities devmap (x :: (xs ++ c :: ys))
          = childEntities devmap (x :: (xs ++ ys))
      simp only [childEntities, ih ys]

/-- C6: during setup, a child node whose parent id has no registered
device contributes no entity and no exception: the child loop on a list
containing it equals the loop on the list without it, and the whole
`setup_platform` entity construction is likewise unchanged by such a
child. -/
theorem unregistered_parent_child_skipped (devmap : List String) (c : Node)
    (p : String) (xs ys : List Node) (as bs : List Node)
    (progs : List ProgramEntry) (hp : c.parent_node = some p)
    (hm : devmap.contains p = false)
    (hm2 : ((((as ++ bs).filter (fun n => n.parent_node == none)).map
        (fun n => n.nid)).contains p) = false) :
    childEntity devmap c = Except.ok []
    ∧ childEntities devmap (xs ++ c :: ys) = childEntities devmap (xs ++ ys)
    ∧ setup_entities (as ++ c :: bs) progs = setup_entities (as ++ bs) progs := by
  have hc : childEntity devmap c = Except.ok [] :=
    childEntity_no_parent devmap c p hp hm
  refine ⟨hc, childEntities_skip devmap c hc xs ys, ?_⟩
  have hpar : (as ++ c :: bs).filter (fun n => n.parent_node == none)
      = (as ++ bs).filter (fun n => n.parent_node == none) := by
    simp [List.filter_append, List.filter_cons, hp]
  have hch : (as ++ c :: bs).filter (fun n => n.parent_node != none)
      = as.filter (fun n => n.parent_node != none) ++
        c :: bs.filter (fun n => n.parent_node != none) := by
    simp [List.filter_append, List.filter_cons, hp]
  have hch2 : (as ++ bs).filter (fun n => n.parent_node != none)
      = as.filter (fun n => n.parent_node != none) ++
        bs.filter (fun n => n.parent_node != none) := by
    simp [List.filter_append]
  have hc2 : childEntity (((as ++ bs).filter
      (fun n => n.parent_node == none)).map (fun n => n.nid)) c = Except.ok [] :=
    childEntity_no_parent _ c p hp hm2
  simp only [setup_entities, hpar, hch, hch2]
  rw [childEntities_skip _ c hc2]

/-- Witness for C6: a child referencing the absent parent "z" is skipped
while the sibling with registered parent "a" still yields its entity. -/
theorem unregistered_parent_child_skipped_witness :
    (Node.mk "b2" (some "z") none).parent_node = some "z"
    ∧ (["a"] : List String).contains "z" = false
    ∧ childEntity ["a"] (Node.mk "b2" (some "z") none) = Except.ok [] :=
  ⟨rfl, by decide,
    (unregistered_parent_child_skipped ["a"] (Node.mk "b2" (some "z") none) "z"
      [] [] [] [] [] rfl (by decide) (by decide)).1⟩

lemma validTrace_append (es : List HBEvent) : ∀ (s : HeartbeatState) (e : HBEvent),
    validTrace s (es ++ [e]) = (validTrace s es && validEvent (hbRun s es) e) := by
  induction es with
  | nil => intro s e; simp [validTrace, hbRun, validEvent]
  | cons x xs ih =>
      intro s e
      show (validEvent s x && validTrace (hbStep s x) (xs ++ [e]))
          = ((validEvent s x && validTrace (hbStep s x) xs)
              && validEvent (hbRun (hbStep s x) xs) e)
      rw [ih (hbStep s x) e, Bool.and_assoc]

lemma hbRun_append_one (s : HeartbeatState) (es : List HBEvent) (e : HBEvent) :
    hbRun s (es ++ [e]) = hbStep (hbRun s es) e := by
  simp [hbRun, List.foldl_append]

lemma hbRun_timer_arm (es : List HBEvent) : ∀ (s : HeartbeatState) (t0 : Nat),
    s.heartbeat_timer = none ∨ s.heartbeat_timer = some (t0 + 25) →
    (hbRun s es).heartbeat_timer = none
    ∨ (hbRun s es).heartbeat_timer = some (lastArm t0 es + 25) := by
  induction es with
  | nil => intro s t0 h; exact h
  | cons e es ih =>
      intro s t0 h
      match e with
      | HBEvent.attach t =>
          exact ih (hbStep s (HBEvent.attach t)) t (Or.inr (restart_timer_handle t s))
      | HBEvent.hb t =>
          exact ih (hbStep s (HBEvent.hb t)) t (Or.inr (heartbeat_handle t s))
      | HBEvent.expire u =>
          exact ih (hbStep s (HBEvent.expire u)) t0 (Or.inl rfl)

/-- C1: in every valid heartbeat trace that starts with the entity
attached at `t0` and ends with the countdown firing at `u`, the firing
time is exactly 25 hours after the last (re)arming event, the flag then
reads dead; conversely every liveness notification immediately sets the
flag alive and re-arms the 25 hour countdown, a pending countdown can
always fire at its scheduled time and then reads dead, and the flag can
become dead only through a countdown expiry event. -/
theorem heartbeat_dead_iff_timeout (t0 : Nat) (es : List HBEvent) (u : Nat)
    (hv : validTrace (hbStep hbInit (HBEvent.attach t0))
        (es ++ [HBEvent.expire u]) = true) :
    u = lastArm t0 es + 25
    ∧ (hbRun (hbStep hbInit (HBEvent.attach t0))
        (es ++ [HBEvent.expire u])).computed_state = some true
    ∧ (∀ (s : HeartbeatState) (t : Nat),
        (hbStep s (HBEvent.hb t)).computed_state = some false
        ∧ (hbStep s (HBEvent.hb t)).heartbeat_timer = some (t + 25))
    ∧ (∀ (s : HeartbeatState) (w : Nat), s.heartbeat_timer = some w →
        validEvent s (HBEvent.expire w) = true
        ∧ (hbStep s (HBEvent.expire w)).computed_state = some true)
    ∧ (∀ (s : HeartbeatState) (e : HBEvent), validEvent s e = true →
        s.computed_state ≠ some true →
        (hbStep s e).computed_state = some true →
        ∃ w, e = HBEvent.expire w) := by
  rw [validTrace_append] at hv
  simp only [Bool.and_eq_true] at hv
  obtain ⟨hv1, hv2⟩ := hv
  have hu : (hbRun (hbStep hbInit (HBEvent.attach t0)) es).heartbeat_timer
      = some u := by
    simpa [validEvent] using hv2
  have harm := hbRun_timer_arm es (hbStep hbInit (HBEvent.attach t0)) t0
    (Or.inr (restart_timer_handle t0 hbInit))
  refine ⟨?_, ?_, ?_, ?_, ?_⟩
  · rcases harm with h | h
    · rw [hu] at h; cases h
    · rw [hu] at h
      exact Option.some.inj h
  · rw [hbRun_append_one]
    rfl
  · intro s t
    exact ⟨heartbeat_flag t s, heartbeat_handle t s⟩
  · intro s w hw
    constructor
    · simp [validEvent, hw]
    · rfl
  · intro s e hve hflag hstep
    match e with
    | HBEvent.attach t =>
        rw [show (hbStep s (HBEvent.attach t)).computed_state = s.computed_state from
          restart_timer_flag t s] at hstep
        exact absurd hstep hflag
    | HBEvent.hb t =>
        rw [show (hbStep s (HBEvent.hb t)).computed_state = some false from
          heartbeat_flag t s] at hstep
        simp at hstep
    | HBEvent.expire w => exact ⟨w, rfl⟩

/-- Witness for C1: attach at hour 0, one liveness notification at hour 2,
then the countdown fires at hour 27 = 2 + 25. -/
theorem heartbeat_dead_iff_timeout_witness :
    validTrace (hbStep hbInit (HBEvent.attach 0))
        ([HBEvent.hb 2] ++ [HBEvent.expire 27]) = true
    ∧ 27 = lastArm 0 [HBEvent.hb 2] + 25 :=
  ⟨by decide, (heartbeat_dead_iff_timeout 0 [HBEvent.hb 2] 27 (by decide)).1⟩

/-- Invariant tying the `_heartbeat_timer` handle to the host scheduler:
the only pending timer is the one the handle tracks. -/
def timerInv (s : HeartbeatState) : Prop :=
  match s.heartbeat_timer with
  | some h => s.active = [h]
  | none => s.active = []

lemma restart_timer_inv (now : Nat) (s : HeartbeatState) (h : timerInv s) :
    (restart_timer now s).active = [now + 25] ∧ timerInv (restart_timer now s) := by
  cases hs : s.heartbeat_timer with
  | none =>
      simp only [timerInv, hs] at h
      constructor
      · simp [restart_timer, hs, h]
      · simp [timerInv, restart_timer, hs, h]
  | some x =>
      simp only [timerInv, hs] at h
      constructor
      · simp [restart_timer, hs, h]
      · simp [timerInv, restart_timer, hs, h]

lemma hbRun_inv (es : List HBEvent) : ∀ s : HeartbeatState,
    timerInv s → validTrace s es = true → timerInv (hbRun s es) := by
  induction es with
  | nil => intro s h _; exact h
  | cons e es ih =>
      intro s h hv
      simp only [validTrace, Bool.and_eq_true] at hv
      obtain ⟨hv1, hv2⟩ := hv
      refine ih (hbStep s e) ?_ hv2
      match e with
      | HBEvent.attach t => exact (restart_timer_inv t s h).2
      | HBEvent.hb t =>
          exact (restart_timer_inv t { s with computed_state := some false } h).2
      | HBEvent.expire u =>
          have hw : s.heartbeat_timer = some u := by simpa [validEvent] using hv1
          simp only [timerInv, hw] at h
          show timerInv (timer_elapsed u s)
          simp [timerInv, timer_elapsed, h]

/-- C7: along every valid trace from a fresh heartbeat entity at most one
countdown timer is pending; every `_restart_timer` call leaves exactly the
newly scheduled timer pending, and a timer expiry clears both the handle
and the pending timer. -/
theorem single_pending_timer (es : List HBEvent)
    (hv : validTrace hbInit es = true) :
    (hbRun hbInit es).active.length ≤ 1
    ∧ (∀ now, (restart_timer now (hbRun hbInit es)).active = [now + 25])
    ∧ (∀ u, validEvent (hbRun hbInit es) (HBEvent.expire u) = true →
        (hbStep (hbRun hbInit es) (HBEvent.expire u)).heartbeat_timer = none
        ∧ (hbStep (hbRun hbInit es) (HBEvent.expire u)).active = []) := by
  have hinv : timerInv (hbRun hbInit es) :=
    hbRun_inv es hbInit (by simp [timerInv, hbInit]) hv
  refine ⟨?_, ?_, ?_⟩
  · cases hs : (hbRun hbInit es).heartbeat_timer with
    | none => simp only [timerInv, hs] at hinv; simp [hinv]
    | some x => simp only [timerInv, hs] at hinv; simp [hinv]
  · intro now
    exact (restart_timer_inv now _ hinv).1
  · intro u hu
    have hw : (hbRun hbInit es).heartbeat_timer = some u := by
      simpa [validEvent] using hu
    simp only [timerInv, hw] at hinv
    constructor
    · rfl
    · show (timer_elapsed u (hbRun hbInit es)).active = []
      simp [timer_elapsed, hinv]

/-- Witness for C7 on a concrete trace: attach, liveness notification,
expiry. -/
theorem single_pending_timer_witness :
    validTrace hbInit [HBEvent.attach 0, HBEvent.hb 1, HBEvent.expire 26] = true
    ∧ (hbRun hbInit
        [HBEvent.attach 0, HBEvent.hb 1, HBEvent.expire 26]).active.length ≤ 1 :=
  ⟨by decide,
    (single_pending_timer [HBEvent.attach 0, HBEvent.hb 1, HBEvent.expire 26]
      (by decide)).1⟩

/-- C10: the 25 hour countdown is armed by `async_added_to_hass` itself,
while the flag is still unknown; in a trace with no liveness notification
the countdown can only fire 25 hours after attach, and takes the flag from
unknown directly to dead. -/
theorem countdown_armed_at_attach (t0 u : Nat)
    (hv : validTrace hbInit [HBEvent.attach t0, HBEvent.expire u] = true) :
    (hbStep hbInit (HBEvent.attach t0)).heartbeat_timer = some (t0 + 25)
    ∧ (hbStep hbInit (HBEvent.attach t0)).computed_state = none
    ∧ u = t0 + 25
    ∧ (hbRun hbInit [HBEvent.attach t0, HBEvent.expire u]).computed_state
        = some true := by
  refine ⟨restart_timer_handle t0 hbInit, restart_timer_flag t0 hbInit, ?_, rfl⟩
  simp only [validTrace, Bool.and_eq_true] at hv
  have hw : (hbStep hbInit (HBEvent.attach t0)).heartbeat_timer = some u := by
    simpa [validEvent] using hv.2.1
  have harm : (hbStep hbInit (HBEvent.attach t0)).heartbeat_timer
      = some (t0 + 25) := restart_timer_handle t0 hbInit
  rw [harm] at hw
  exact (Option.some.inj hw).symm

/-- Witness for C10: attach at hour 0, expiry at hour 25. -/
theorem countdown_armed_at_attach_witness :
    validTrace hbInit [HBEvent.attach 0, HBEvent.expire 25] = true
    ∧ (hbRun hbInit [HBEvent.attach 0, HBEvent.expire 25]).computed_state
        = some true :=
  ⟨by decide, (countdown_armed_at_attach 0 25 (by decide)).2.2.2⟩
